import Mathlib

/-!
Shallow embedding of the resilient multi-provider video retrieval layer
(the `streamService` module): formatters, the native/web transport,
the rotating endpoint fetcher, the provider normalizers and the
aggregation facade, together with proofs of the specified properties.

JavaScript conventions are modelled explicitly: a possibly-`undefined`
field is an `Option`, a thrown exception is `Except.error` carrying the
message, and truthiness of a string value is non-emptiness.  The module's
global rotation cursor (`activeInstanceIndex`) is threaded as an explicit
`Nat` argument and result.  Network effects are modelled by an environment
(`FetchEnv`) mapping request URLs to outcomes, and each operation also
returns the list of HTTP requests it issued, so that "performs no network
call" is expressible.
-/

/-- JavaScript `a || b` for a possibly-undefined string `a` with a string
default `b` (the empty string is falsy). -/
def jsOrStr (o : Option String) (d : String) : String :=
  match o with
  | some s => if s = "" then d else s
  | none => d

/-- JavaScript truthiness of a possibly-undefined string value. -/
def jsTruthy (o : Option String) : Bool :=
  match o with
  | some s => s ≠ ""
  | none => false

/-- Lowercasing via `Char.toLower`, modelling `String.prototype.toLowerCase`
on the ASCII strings this service handles. -/
def strToLower (s : String) : String := ⟨s.data.map Char.toLower⟩

/-- JavaScript `s.includes(sub)`: substring containment. -/
def jsIncludes (s sub : String) : Bool :=
  s.data.tails.any (fun t => sub.data.isPrefixOf t)

/-- Splitting worker: fuel-indexed scan used by `jsSplit`. -/
def splitGo (sep : List Char) : Nat → List Char → List Char → List (List Char)
  | 0, rest, acc => [acc.reverse ++ rest]
  | fuel+1, rest, acc =>
    match rest with
    | [] => [acc.reverse]
    | c :: rs =>
      if sep.isPrefixOf rest then
        acc.reverse :: splitGo sep fuel (rest.drop sep.length) []
      else splitGo sep fuel rs (c :: acc)

/-- JavaScript `s.split(sep)` for a non-empty separator. -/
def jsSplit (s sep : String) : List String :=
  (splitGo sep.data s.data.length s.data []).map (fun l => ⟨l⟩)

/-- UTF-8 encoding of one character, as byte values. -/
def utf8Bytes (c : Char) : List Nat :=
  let n := c.toNat
  if n < 128 then [n]
  else if n < 2048 then [192 + n / 64, 128 + n % 64]
  else if n < 65536 then [224 + n / 4096, 128 + (n / 64) % 64, 128 + n % 64]
  else [240 + n / 262144, 128 + (n / 4096) % 64, 128 + (n / 64) % 64, 128 + n % 64]

/-- Hexadecimal digits used by percent-encoding. -/
def hexDigits : List Char :=
  ['0','1','2','3','4','5','6','7','8','9','A','B','C','D','E','F']

/-- Percent-encoding of one byte value. -/
def byteHex (b : Nat) : List Char :=
  ['%', hexDigits.getD (b / 16) '0', hexDigits.getD (b % 16) '0']

/-- Characters left unescaped by JavaScript `encodeURIComponent`. -/
def uriUnescaped (c : Char) : Bool :=
  c.isAlphanum || (['-','_','.','!','~','*','\'','(',')'].contains c)

/-- JavaScript `encodeURIComponent`. -/
def encodeURIComponent (s : String) : String :=
  ⟨s.data.foldr (fun c acc =>
      if uriUnescaped c then c :: acc
      else ((utf8Bytes c).map byteHex).flatten ++ acc) []⟩

/-- Decimal string of `n` padded on the left to two characters with `'0'`,
modelling `n.toString().padStart(2, '0')`. -/
def pad2 (n : Nat) : String :=
  let s := toString n
  if s.length < 2 then "0" ++ s else s

/-- Rounded one-decimal rendering of `n / denom`, modelling
`(n / denom).toFixed(1)` on the magnitudes the formatter receives. -/
def toFixed1 (n denom : Nat) : String :=
  let tenths := (n * 10 + denom / 2) / denom
  toString (tenths / 10) ++ "." ++ toString (tenths % 10)

/-- View-count formatter `formatViews` of the service module. -/
def formatViews (views : Nat) : String :=
  if views = 0 then "0"
  else if views ≥ 1000000 then toFixed1 views 1000000 ++ "M"
  else if views ≥ 1000 then toFixed1 views 1000 ++ "K"
  else toString views

/-- Duration formatter `formatDuration` of the service module. -/
def formatDuration (seconds : Nat) : String :=
  if seconds = 0 then "00:00"
  else
    let h := seconds / 3600
    let m := (seconds % 3600) / 60
    let s := seconds % 60
    if h > 0 then toString h ++ ":" ++ pad2 m ++ ":" ++ pad2 s
    else toString m ++ ":" ++ pad2 s

/-- The normalized video record (`VideoData` in the source).  Fields that a
normalizer can leave `undefined` are `Option`s; `views`, `date`, `duration`
and `platform` are always assigned a string by every mapper. -/
structure VideoData where
  id : Option String
  title : Option String
  uploader : Option String
  views : String
  date : String
  duration : String
  thumbnail : Option String
  platform : String
  avatar : Option String
  streamUrl : Option String := none
  isShort : Option Bool := none
  deriving Repr, DecidableEq

/-- Raw item of the Piped (YouTube) trending/search responses. -/
structure RawYtItem where
  type : Option String := none
  url : Option String := none
  title : Option String := none
  uploaderName : Option String := none
  views : Option Nat := none
  uploadedDate : Option String := none
  duration : Option Nat := none
  thumbnail : Option String := none
  uploaderAvatar : Option String := none
  isShort : Option Bool := none
  deriving Repr, DecidableEq

/-- Raw `owner` sub-object of a Dailymotion item. -/
structure RawDmOwner where
  username : Option String := none
  avatar80url : Option String := none
  deriving Repr, DecidableEq

/-- Raw item of the Dailymotion `/videos` response list. -/
structure RawDmItem where
  id : Option String := none
  title : Option String := none
  owner : Option RawDmOwner := none
  viewsTotal : Option Nat := none
  duration : Option Nat := none
  thumbnail720url : Option String := none
  deriving Repr, DecidableEq

/-- Raw Dailymotion response body (an object with a `list` field). -/
structure RawDmPayload where
  list : Option (List RawDmItem) := none
  deriving Repr, DecidableEq

/-- Raw `account` sub-object of a PeerTube item. -/
structure RawPtAccount where
  name : Option String := none
  deriving Repr, DecidableEq

/-- Raw `option` sub-object of a PeerTube item (read as `v.option?.name`). -/
structure RawPtOption where
  name : Option String := none
  deriving Repr, DecidableEq

/-- Raw item of the SepiaSearch (PeerTube) response list. -/
structure RawPtItem where
  uuid : Option String := none
  id : Option Nat := none
  name : Option String := none
  option : Option RawPtOption := none
  account : Option RawPtAccount := none
  views : Option Nat := none
  publishedAt : Option String := none
  duration : Option Nat := none
  thumbnailUrl : Option String := none
  previewPath : Option String := none
  embedPath : Option String := none
  deriving Repr, DecidableEq

/-- Raw PeerTube response body (an object with a `data` field). -/
structure RawPtPayload where
  data : Option (List RawPtItem) := none
  deriving Repr, DecidableEq

/-- Raw variant entry of the Piped `/streams/{id}` response. -/
structure RawStream where
  quality : Option String := none
  videoOnly : Option Bool := none
  url : Option String := none
  deriving Repr, DecidableEq

/-- Raw Piped `/streams/{id}` response body. -/
structure RawStreams where
  hls : Option String := none
  videoStreams : Option (List RawStream) := none
  deriving Repr, DecidableEq

/-- Shapes of JSON payloads a backend can deliver (the JS code is untyped;
this sum covers every shape the service reads). -/
inductive Payload where
  | ytList (items : List RawYtItem)
  | ytSearch (items : List RawYtItem)
  | streams (d : RawStreams)
  | suggestions (l : List String)
  | dm (d : RawDmPayload)
  | pt (d : RawPtPayload)
  | jnull
  deriving Repr, DecidableEq

/-- Duck-typed read of `data.list` (Dailymotion): anything that is null or
has no `list` array yields `none`. -/
def Payload.dmList : Payload → Option (List RawDmItem)
  | .dm d => d.list
  | _ => none

/-- Duck-typed read of `data.data` (PeerTube). -/
def Payload.ptData : Payload → Option (List RawPtItem)
  | .pt d => d.data
  | _ => none

/-- Duck-typed read of `data.hls`. -/
def Payload.hls : Payload → Option String
  | .streams d => d.hls
  | _ => none

/-- Duck-typed read of `data.videoStreams`. -/
def Payload.videoStreams : Payload → Option (List RawStream)
  | .streams d => d.videoStreams
  | _ => none

/-- Reading a suggestions payload as `string[]` (the JS code returns the
value untyped; no claim depends on a non-array payload here). -/
def Payload.suggestionList : Payload → List String
  | .suggestions l => l
  | _ => []

/-- An HTTP response as seen by the transport: a status and a parsed body. -/
structure HttpResp where
  status : Nat
  data : Payload
  deriving Repr

/-- One issued HTTP request, tagged with the facility that carried it. -/
inductive HttpReq where
  | nativeGet (url : String)
  | webGet (url : String)
  deriving Repr, DecidableEq

/-- Execution environment of one call: the runtime capability flags and the
outcome of every possible GET (an `Except.error` is a thrown exception /
network failure).  `localeDate` models `Date.prototype.toLocaleDateString`.
-/
structure FetchEnv where
  isNative : Bool
  hasCapacitorHttp : Bool
  nativeGet : String → Except String HttpResp
  webGet : String → Except String HttpResp
  localeDate : String → String

/-- Success-range check `status >= 200 && status < 300` (also the meaning
of `Response.ok` for the web fetches). -/
def resOk (r : HttpResp) : Bool := 200 ≤ r.status && r.status < 300

/-- The CORS proxy prefix of the configuration section. -/
def CORS_PROXY : String := "https://cors-anywhere.herokuapp.com/"

/-- The Dailymotion API base of the configuration section. -/
def DM_API_BASE : String := "https://api.dailymotion.com"

/-- The PeerTube search API of the configuration section. -/
def PEERTUBE_SEARCH_API : String := "https://sepiasearch.org/api/v1/search/videos"

/-- The Piped mirror pool of the configuration section. -/
def PIPED_INSTANCES : List String :=
  ["https://pipedapi.kavin.rocks",
   "https://api.piped.vic.click",
   "https://piped-api.garudalinux.org",
   "https://pipedapi.drgns.space",
   "https://pa.il.ax",
   "https://pipedapi.system41.site",
   "https://api.piped.privacy.com.de"]

/-- Native delivery strategy: one GET through the platform HTTP plugin;
non-2xx statuses and thrown errors fail the call. -/
def nativeStrategy (get : String → Except String HttpResp) (url : String) :
    Except String Payload :=
  match get url with
  | .ok r => if resOk r then .ok r.data else .error ("Native HTTP Error: " ++ toString r.status)
  | .error e => .error e

/-- Last-resort web attempt through the CORS proxy, as in the inner
`try` of the web branch of `nativeFetch`. -/
def webProxyAttempt (get : String → Except String HttpResp) (url : String) :
    Except String Payload :=
  match get (CORS_PROXY ++ url) with
  | .ok r => if resOk r then .ok r.data else .error "Web Fetch Failed"
  | .error _ => .error "Web Fetch Failed"

/-- Web delivery strategy: direct fetch first, then exactly one retry
through the CORS proxy, failing if both fail. -/
def webStrategy (get : String → Except String HttpResp) (url : String) :
    Except String Payload :=
  match get url with
  | .ok r => if resOk r then .ok r.data else webProxyAttempt get url
  | .error _ => webProxyAttempt get url

/-- The `nativeFetch` helper: native-first HTTP fetcher.  Returns the
outcome together with the requests issued.  The native branch is taken
exactly when the runtime is native and the `CapacitorHttp` plugin is
available (the source falls through to the web path when the plugin is
missing). -/
def nativeFetch (env : FetchEnv) (url : String) :
    Except String Payload × List HttpReq :=
  if env.isNative && env.hasCapacitorHttp then
    (nativeStrategy env.nativeGet url, [HttpReq.nativeGet url])
  else
    match env.webGet url with
    | .ok r =>
      if resOk r then (.ok r.data, [HttpReq.webGet url])
      else (webProxyAttempt env.webGet url,
            [HttpReq.webGet url, HttpReq.webGet (CORS_PROXY ++ url)])
    | .error _ =>
      (webProxyAttempt env.webGet url,
       [HttpReq.webGet url, HttpReq.webGet (CORS_PROXY ++ url)])

/-- Loop of `fetchWithRotation`: `attempts` counts failures so far, `fuel`
is `maxAttempts - attempts` (the source loops `while attempts < 3`).
`start` is the entry value of `activeInstanceIndex`; the returned `Nat`
is its value after the call. -/
def rotationGo (env : FetchEnv) (path : String) (start : Nat) :
    Nat → Nat → (Except String Payload × Nat) × List HttpReq
  | _, 0 => ((.error "All API instances failed.", start), [])
  | attempts, fuel+1 =>
    let currentIndex := (start + attempts) % PIPED_INSTANCES.length
    let url := PIPED_INSTANCES.getD currentIndex "" ++ path
    match nativeFetch env url with
    | (.ok d, tr) =>
      ((.ok d, if start ≠ currentIndex then currentIndex else start), tr)
    | (.error _, tr) =>
      let rest := rotationGo env path start (attempts + 1) fuel
      (rest.1, tr ++ rest.2)

/-- The `fetchWithRotation` helper: resilient fetcher trying up to 3 pool
entries in round-robin order starting at the preferred index. -/
def fetchWithRotation (env : FetchEnv) (path : String) (idx : Nat) :
    (Except String Payload × Nat) × List HttpReq :=
  rotationGo env path idx 0 3

/-- URL of rotation attempt number `k` for a call entered with preferred
index `p`. -/
def attemptURL (p : Nat) (path : String) (k : Nat) : String :=
  PIPED_INSTANCES.getD ((p + k) % PIPED_INSTANCES.length) "" ++ path

/-- Per-item mapper of the Piped trending and search results (the inline
arrow function of `getTrending` and `search`); reading
`v.url.split("v=")[1]` throws when `url` is absent. -/
def mapYtItem (v : RawYtItem) : Except String VideoData :=
  match v.url with
  | none => .error "TypeError: cannot read property of undefined"
  | some u => .ok
      { id := (jsSplit u "v=").get? 1
        title := v.title
        uploader := v.uploaderName
        views := formatViews (v.views.getD 0)
        date := jsOrStr v.uploadedDate "Recently"
        duration := formatDuration (v.duration.getD 0)
        thumbnail := v.thumbnail
        platform := "YouTube"
        avatar := v.uploaderAvatar
        isShort := v.isShort }

/-- Per-item mapper inside `mapDmData`. -/
def mapDmItem (v : RawDmItem) : VideoData :=
  { id := v.id
    title := v.title
    uploader := match v.owner with | some o => o.username | none => some "Unknown"
    views := formatViews (v.viewsTotal.getD 0)
    date := "Recently"
    duration := formatDuration (v.duration.getD 0)
    thumbnail := v.thumbnail720url
    platform := "Dailymotion"
    avatar := match v.owner with | some o => o.avatar80url | none => some "" }

/-- The `mapDmData` normalizer; returns `[]` when the payload is null or
has no `list` array. -/
def mapDmData (data : Payload) : List VideoData :=
  match data.dmList with
  | none => []
  | some l => l.map mapDmItem

/-- Per-item mapper inside `mapPeerTubeData`.  The identifier expression
`v.uuid || v.id.toString()` throws when `uuid` is falsy and `id` is
absent; `loc` models `toLocaleDateString`. -/
def mapPtItem (loc : String → String) (v : RawPtItem) : Except String VideoData :=
  match (if jsTruthy v.uuid then .ok (v.uuid.getD "")
         else match v.id with
              | some n => .ok (toString n)
              | none => .error "TypeError: cannot read property of undefined" :
         Except String String) with
  | .error e => .error e
  | .ok ident => .ok
      { id := some ident
        title := if jsTruthy v.name then v.name else v.option.bind RawPtOption.name
        uploader := some (jsOrStr (v.account.bind RawPtAccount.name) "PeerTube User")
        views := formatViews (v.views.getD 0)
        date := if jsTruthy v.publishedAt then loc (v.publishedAt.getD "") else "Recently"
        duration := formatDuration (v.duration.getD 0)
        thumbnail := some (jsOrStr v.thumbnailUrl
          (if jsTruthy v.previewPath then "https://sepiasearch.org" ++ v.previewPath.getD "" else ""))
        platform := "PeerTube"
        avatar := some ""
        streamUrl := v.embedPath }

/-- The `mapPeerTubeData` normalizer; returns `[]` when the payload is
null or has no `data` array, and propagates the per-item throw. -/
def mapPeerTubeData (loc : String → String) (data : Payload) :
    Except String (List VideoData) :=
  match data.ptData with
  | none => .ok []
  | some l => l.mapM (mapPtItem loc)

/-- Modelled from the spec: the static mock sets (`MOCK_VIDEOS`,
`MOCK_TIKTOK_VIDEOS`, `MOCK_RUMBLE_VIDEOS`, `MOCK_PEERTUBE_VIDEOS`) are
imported from a constants module that is not among the given sources; per
the spec they are fixed, hardcoded sequences of video records, so they are
carried as an explicit parameter of the facade. -/
structure MockSets where
  generic : List VideoData
  tiktok : List VideoData
  rumble : List VideoData
  peertube : List VideoData

/-- Case-insensitive title substring test used by the search paths:
`v.title.toLowerCase().includes(query.toLowerCase())`. -/
def titleMatch (q : String) (v : VideoData) : Bool :=
  jsIncludes (strToLower (v.title.getD "")) (strToLower q)

/-- Mock set chosen by the web-context fallback of `getTrending`. -/
def trendingMockFallback (mocks : MockSets) (platform : String) : List VideoData :=
  if platform = "TikTok" then mocks.tiktok
  else if platform = "Rumble" then mocks.rumble
  else if platform = "PeerTube" then mocks.peertube
  else mocks.generic

/-- Mock set chosen by the web-context fallback of `search` before
filtering. -/
def searchMockBase (mocks : MockSets) (platform : String) : List VideoData :=
  if platform = "TikTok" then mocks.tiktok
  else if platform = "Rumble" then mocks.rumble
  else if platform = "PeerTube" then mocks.peertube
  else mocks.generic

/-- Stream-variant predicate `s.quality === "1080p" && s.videoOnly === false`. -/
def is1080pAV (s : RawStream) : Bool :=
  s.quality == some "1080p" && s.videoOnly == some false

/-- Stream-variant predicate `s.quality === "720p" && s.videoOnly === false`. -/
def is720pAV (s : RawStream) : Bool :=
  s.quality == some "720p" && s.videoOnly == some false

/-- Stream-variant predicate `s.videoOnly === false`. -/
def isAV (s : RawStream) : Bool :=
  s.videoOnly == some false

/-- Fallback sample URL of `getStreamUrl`. -/
def sampleUrl : String :=
  "https://commondatastorage.googleapis.com/gtv-videos-bucket/sample/BigBuckBunny.mp4"

namespace streamService

/-- Body of the `try` block of `getTrending`: dispatch by platform.  The
result carries the updated rotation index and the issued requests. -/
def getTrendingBody (env : FetchEnv) (mocks : MockSets)
    (platform country : String) (idx : Nat) :
    (Except String (List VideoData) × Nat) × List HttpReq :=
  if platform = "YouTube" ∨ platform = "All" then
    match fetchWithRotation env ("/trending?region=" ++ country) idx with
    | ((.ok p, idx2), tr) =>
      match p with
      | .ytList items =>
        (match items.mapM mapYtItem with
         | .ok vs => ((.ok vs, idx2), tr)
         | .error e => ((.error e, idx2), tr))
      | _ => ((.error "TypeError: data.map is not a function", idx2), tr)
    | ((.error e, idx2), tr) => ((.error e, idx2), tr)
  else if platform = "Dailymotion" then
    match nativeFetch env (DM_API_BASE ++ "/videos?flags=no_live,no_premium&fields=id,title,owner.username,views_total,created_time,duration,thumbnail_720_url,owner.avatar_80_url&sort=trending&limit=20&country=" ++ country) with
    | (.ok p, tr) => ((.ok (mapDmData p), idx), tr)
    | (.error e, tr) => ((.error e, idx), tr)
  else if platform = "PeerTube" then
    match nativeFetch env (PEERTUBE_SEARCH_API ++ "?sort=-publishedAt&nsfw=false&count=10") with
    | (.ok p, tr) => ((mapPeerTubeData env.localeDate p, idx), tr)
    | (.error e, tr) => ((.error e, idx), tr)
  else if platform = "TikTok" then ((.ok mocks.tiktok, idx), [])
  else if platform = "Rumble" then ((.ok mocks.rumble, idx), [])
  else if platform = "Bandcamp" then ((.ok [], idx), [])
  else ((.ok mocks.generic, idx), [])

/-- The `getTrending` operation: the `try` body with the silent-fallback
`catch` applied (mocks in a web context, empty list in a native context). -/
def getTrending (env : FetchEnv) (mocks : MockSets)
    (platform country : String) (idx : Nat) :
    (List VideoData × Nat) × List HttpReq :=
  match getTrendingBody env mocks platform country idx with
  | ((.ok vs, idx2), tr) => ((vs, idx2), tr)
  | ((.error _, idx2), tr) =>
    if !env.isNative then ((trendingMockFallback mocks platform, idx2), tr)
    else (([], idx2), tr)

/-- Body of the `try` block of `search`: dispatch by platform. -/
def searchBody (env : FetchEnv) (mocks : MockSets)
    (query platform : String) (idx : Nat) :
    (Except String (List VideoData) × Nat) × List HttpReq :=
  if platform = "YouTube" ∨ platform = "All" then
    match fetchWithRotation env ("/search?q=" ++ encodeURIComponent query ++ "&filter=all") idx with
    | ((.ok p, idx2), tr) =>
      match p with
      | .ytSearch items =>
        (match (items.filter (fun i => i.type == some "stream")).mapM mapYtItem with
         | .ok vs => ((.ok vs, idx2), tr)
         | .error e => ((.error e, idx2), tr))
      | _ => ((.error "TypeError: cannot read property of undefined", idx2), tr)
    | ((.error e, idx2), tr) => ((.error e, idx2), tr)
  else if platform = "Dailymotion" then
    match nativeFetch env (DM_API_BASE ++ "/videos?flags=no_live,no_premium&fields=id,title,owner.username,views_total,created_time,duration,thumbnail_720_url,owner.avatar_80_url&limit=20&search=" ++ encodeURIComponent query) with
    | (.ok p, tr) => ((.ok (mapDmData p), idx), tr)
    | (.error e, tr) => ((.error e, idx), tr)
  else if platform = "PeerTube" then
    match nativeFetch env (PEERTUBE_SEARCH_API ++ "?search=" ++ encodeURIComponent query ++ "&count=20&sort=-match") with
    | (.ok p, tr) => ((mapPeerTubeData env.localeDate p, idx), tr)
    | (.error e, tr) => ((.error e, idx), tr)
  else if platform = "TikTok" then
    ((.ok (mocks.tiktok.filter (fun v => titleMatch query v || decide (query.length < 3))), idx), [])
  else if platform = "Rumble" then
    ((.ok (mocks.rumble.filter (fun v => titleMatch query v || decide (query.length < 3))), idx), [])
  else
    ((.ok (mocks.generic.filter (fun v => titleMatch query v)), idx), [])

/-- The `search` operation: the `try` body with the silent-fallback
`catch` applied; the web fallback filters the mock set and falls back to
the unfiltered set when the filter result is empty. -/
def search (env : FetchEnv) (mocks : MockSets)
    (query platform : String) (idx : Nat) :
    (List VideoData × Nat) × List HttpReq :=
  match searchBody env mocks query platform idx with
  | ((.ok vs, idx2), tr) => ((vs, idx2), tr)
  | ((.error _, idx2), tr) =>
    if !env.isNative then
      let results := searchMockBase mocks platform
      let filtered := results.filter (fun v => titleMatch query v)
      ((if filtered.length > 0 then filtered else results, idx2), tr)
    else (([], idx2), tr)

/-- The `getSuggestions` operation. -/
def getSuggestions (env : FetchEnv) (query : String) (idx : Nat) :
    (List String × Nat) × List HttpReq :=
  if query = "" then (([], idx), [])
  else
    match fetchWithRotation env ("/suggestions?query=" ++ encodeURIComponent query) idx with
    | ((.ok p, idx2), tr) => ((p.suggestionList, idx2), tr)
    | ((.error _, idx2), tr) => (([], idx2), tr)

/-- The `getStreamUrl` operation. -/
def getStreamUrl (env : FetchEnv) (mocks : MockSets)
    (id platform : String) (idx : Nat) :
    (Option String × Nat) × List HttpReq :=
  if platform = "YouTube" then
    match fetchWithRotation env ("/streams/" ++ id) idx with
    | ((.ok p, idx2), tr) =>
      if jsTruthy p.hls then ((p.hls, idx2), tr)
      else
        let streams := p.videoStreams.getD []
        let bestStream :=
          (streams.find? is1080pAV) <|> (streams.find? is720pAV) <|> (streams.find? isAV)
        (((match bestStream with | some s => s.url | none => none), idx2), tr)
    | ((.error _, idx2), tr) => ((none, idx2), tr)
  else if platform = "Dailymotion" then
    ((some ("https://www.dailymotion.com/embed/video/" ++ id ++ "?autoplay=1"), idx), [])
  else
    let allMocks := mocks.tiktok ++ mocks.rumble ++ mocks.peertube ++ mocks.generic
    match allMocks.find? (fun v => v.id == some id) with
    | some m =>
      if jsTruthy m.streamUrl then ((m.streamUrl, idx), [])
      else ((some sampleUrl, idx), [])
    | none => ((some sampleUrl, idx), [])

end streamService

instance {e a : Type} [DecidableEq e] [DecidableEq a] : DecidableEq (Except e a) := fun
  | .error x, .error y =>
    if h : x = y then .isTrue (h ▸ rfl) else .isFalse (fun hh => h (by injection hh))
  | .error _, .ok _ => .isFalse (fun hh => Except.noConfusion hh)
  | .ok _, .error _ => .isFalse (fun hh => Except.noConfusion hh)
  | .ok x, .ok y =>
    if h : x = y then .isTrue (h ▸ rfl) else .isFalse (fun hh => h (by injection hh))

/-- Web-context environment in which every request fails (offline
web-preview run). -/
def envDead : FetchEnv :=
  { isNative := false, hasCapacitorHttp := false,
    nativeGet := fun _ => .error "offline",
    webGet := fun _ => .error "offline",
    localeDate := fun s => s }

/-- Native-context environment in which every request fails. -/
def envDeadNative : FetchEnv :=
  { isNative := true, hasCapacitorHttp := true,
    nativeGet := fun _ => .error "offline",
    webGet := fun _ => .error "offline",
    localeDate := fun s => s }

/-- Sample normalized record used by concrete check runs. -/
def vAlpha : VideoData :=
  { id := some "a1", title := some "Alpha News", uploader := some "A",
    views := "10", date := "Recently", duration := "1:00",
    thumbnail := some "t", platform := "PeerTube", avatar := some "" }

/-- Second sample normalized record used by concrete check runs. -/
def vBeta : VideoData :=
  { id := some "b1", title := some "Beta Clip", uploader := some "B",
    views := "20", date := "Recently", duration := "2:00",
    thumbnail := some "t", platform := "PeerTube", avatar := some "" }

/-- Concrete mock sets used by check runs. -/
def mocksAB : MockSets :=
  { generic := [vBeta], tiktok := [vAlpha, vBeta], rumble := [vBeta],
    peertube := [vAlpha, vBeta] }

/-- Environment whose first Piped mirror is down and whose second mirror
answers the trending path. -/
def envRot : FetchEnv :=
  { isNative := false, hasCapacitorHttp := false,
    nativeGet := fun _ => .error "offline",
    webGet := fun u =>
      if u = "https://api.piped.vic.click/trending?region=US" then
        .ok { status := 200, data := .ytList [] }
      else .error "down",
    localeDate := fun s => s }

/-- C7: the formatters are pure functions of their numeric input with
formatViews 1500000 = "1.5M", formatViews 500 = "500", formatViews 0 = "0",
formatDuration 3661 = "1:01:01", formatDuration 90 = "1:30" and
formatDuration 0 = "00:00". -/
theorem claim_C7_formatters :
    formatViews 1500000 = "1.5M" ∧ formatViews 500 = "500" ∧
    formatViews 0 = "0" ∧ formatDuration 3661 = "1:01:01" ∧
    formatDuration 90 = "1:30" ∧ formatDuration 0 = "00:00" :=
  ⟨rfl, rfl, rfl, rfl, rfl, rfl⟩

/-- Unfolding step of the rotation loop. -/
theorem rotationGo_succ (env : FetchEnv) (path : String) (start attempts fuel : Nat) :
    rotationGo env path start attempts (fuel + 1) =
      match nativeFetch env (attemptURL start path attempts) with
      | (.ok d, tr) => ((.ok d, (start + attempts) % PIPED_INSTANCES.length), tr)
      | (.error _, tr) =>
        ((rotationGo env path start (attempts + 1) fuel).1,
         tr ++ (rotationGo env path start (attempts + 1) fuel).2) := by
  rcases h : nativeFetch env (attemptURL start path attempts) with ⟨r, t⟩
  simp only [attemptURL] at h
  cases r with
  | ok d =>
    simp only [rotationGo, h]
    by_cases hc : start = (start + attempts) % PIPED_INSTANCES.length
    · rw [if_neg (fun hne => hne hc)]
      conv_lhs => rw [hc]
    · rw [if_pos hc]
  | error e =>
    simp only [rotationGo, h]

/-- Base case of the rotation loop. -/
theorem rotationGo_zero (env : FetchEnv) (path : String) (start attempts : Nat) :
    rotationGo env path start attempts 0 =
      ((.error "All API instances failed.", start), []) := rfl

/-- C2: fetchWithRotation tries at most 3 pool entries in round-robin
order `(preferred + attempt) mod poolSize` starting at the preferred
index; on the first successful attempt it returns that payload and the
preferred index becomes the successful index; if all 3 attempts fail it
fails with the exhaustion error and leaves the preferred index unchanged. -/
theorem claim_C2_rotation (env : FetchEnv) (path : String) (p : Nat) :
    (∀ e, (fetchWithRotation env path p).1.1 = Except.error e →
        e = "All API instances failed." ∧
        (fetchWithRotation env path p).1.2 = p ∧
        ∀ k, k < 3 → ∃ e2, (nativeFetch env (attemptURL p path k)).1 = Except.error e2) ∧
    (∀ d, (fetchWithRotation env path p).1.1 = Except.ok d →
        ∃ k, k < 3 ∧ (nativeFetch env (attemptURL p path k)).1 = Except.ok d ∧
          (∀ j, j < k → ∃ e2, (nativeFetch env (attemptURL p path j)).1 = Except.error e2) ∧
          (fetchWithRotation env path p).1.2 = (p + k) % PIPED_INSTANCES.length) := by
  have hF : fetchWithRotation env path p = rotationGo env path p 0 3 := rfl
  rcases h0 : nativeFetch env (attemptURL p path 0) with ⟨r0, t0⟩
  rcases h1 : nativeFetch env (attemptURL p path 1) with ⟨r1, t1⟩
  rcases h2 : nativeFetch env (attemptURL p path 2) with ⟨r2, t2⟩
  have step0 := rotationGo_succ env path p 0 2
  have step1 := rotationGo_succ env path p 1 1
  have step2 := rotationGo_succ env path p 2 0
  rw [h0] at step0; rw [h1] at step1; rw [h2] at step2
  cases r0 with
  | ok d0 =>
    have hF2 : fetchWithRotation env path p =
        ((Except.ok d0, (p + 0) % PIPED_INSTANCES.length), t0) := hF.trans step0
    constructor
    · intro e he
      rw [hF2] at he
      exact absurd he (by simp)
    · intro d hd
      rw [hF2] at hd
      have hd2 : Except.ok (ε := String) d0 = Except.ok d := hd
      injection hd2 with hde
      subst hde
      exact ⟨0, by omega, by rw [h0], fun j hj => absurd hj (Nat.not_lt_zero j),
        by rw [hF2]⟩
  | error e0 =>
    rw [step1] at step0
    cases r1 with
    | ok d1 =>
      have hF2 : fetchWithRotation env path p =
          ((Except.ok d1, (p + 1) % PIPED_INSTANCES.length), t0 ++ t1) := hF.trans step0
      constructor
      · intro e he
        rw [hF2] at he
        exact absurd he (by simp)
      · intro d hd
        rw [hF2] at hd
        have hd2 : Except.ok (ε := String) d1 = Except.ok d := hd
        injection hd2 with hde
        subst hde
        refine ⟨1, by omega, by rw [h1], ?_, by rw [hF2]⟩
        intro j hj
        have hj0 : j = 0 := by omega
        exact ⟨e0, by rw [hj0, h0]⟩
    | error e1 =>
      rw [step2] at step0
      cases r2 with
      | ok d2 =>
        have hF2 : fetchWithRotation env path p =
            ((Except.ok d2, (p + 2) % PIPED_INSTANCES.length), t0 ++ (t1 ++ t2)) :=
          hF.trans step0
        constructor
        · intro e he
          rw [hF2] at he
          exact absurd he (by simp)
        · intro d hd
          rw [hF2] at hd
          have hd2 : Except.ok (ε := String) d2 = Except.ok d := hd
          injection hd2 with hde
          subst hde
          refine ⟨2, by omega, by rw [h2], ?_, by rw [hF2]⟩
          intro j hj
          interval_cases j
          · exact ⟨e0, by rw [h0]⟩
          · exact ⟨e1, by rw [h1]⟩
      | error e2 =>
        have hF2 : fetchWithRotation env path p =
            ((Except.error "All API instances failed.", p),
             t0 ++ (t1 ++ (t2 ++ []))) := hF.trans step0
        constructor
        · intro e he
          rw [hF2] at he
          have he2 : Except.error (α := Payload) "All API instances failed." =
              Except.error e := he
          injection he2 with hee
          subst hee
          refine ⟨rfl, by rw [hF2], ?_⟩
          intro k hk
          interval_cases k
          · exact ⟨e0, by rw [h0]⟩
          · exact ⟨e1, by rw [h1]⟩
          · exact ⟨e2, by rw [h2]⟩
        · intro d hd
          rw [hF2] at hd
          exact absurd hd (by simp)

/-- Concrete run of the C2 theorem: with the first mirror down and the
second mirror healthy, the call returns the second mirror's payload and
moves the preferred index to 1. -/
theorem claim_C2_rotation_witness :
    ∃ k, k < 3 ∧
      (nativeFetch envRot (attemptURL 0 "/trending?region=US" k)).1 =
        Except.ok (Payload.ytList []) ∧
      (∀ j, j < k → ∃ e2,
        (nativeFetch envRot (attemptURL 0 "/trending?region=US" j)).1 = Except.error e2) ∧
      (fetchWithRotation envRot "/trending?region=US" 0).1.2 =
        (0 + k) % PIPED_INSTANCES.length :=
  (claim_C2_rotation envRot "/trending?region=US" 0).2 (Payload.ytList []) (by decide)

/-- Native-context environment whose plugin GET succeeds. -/
def envNat : FetchEnv :=
  { isNative := true, hasCapacitorHttp := true,
    nativeGet := fun _ => .ok { status := 200, data := .suggestions ["x"] },
    webGet := fun _ => .error "no",
    localeDate := fun s => s }

/-- A 720p audio+video sample variant. -/
def s720 : RawStream :=
  { quality := some "720p", videoOnly := some false, url := some "https://u720" }

/-- A 1080p audio+video sample variant. -/
def s1080 : RawStream :=
  { quality := some "1080p", videoOnly := some false, url := some "https://u1080" }

/-- Environment answering every web GET with a stream list holding both
the 720p and the 1080p variants and no HLS. -/
def envStreams : FetchEnv :=
  { isNative := false, hasCapacitorHttp := false,
    nativeGet := fun _ => .error "offline",
    webGet := fun _ =>
      .ok { status := 200, data := .streams { hls := none, videoStreams := some [s720, s1080] } },
    localeDate := fun s => s }

/-- A Dailymotion raw item with every field absent. -/
def blankDm : RawDmItem := {}

/-- A PeerTube raw item with every field absent. -/
def blankPt : RawPtItem := {}

/-- A truthy optional string is not `none`. -/
theorem jsTruthy_ne_none {o : Option String} (h : jsTruthy o = true) : o ≠ none := by
  cases o with
  | none => simp [jsTruthy] at h
  | some s => simp

/-- C6: the two delivery strategies are mutually exclusive per call.  In a
native execution context (per the glossary, one where the native HTTP
facility is available) the request goes only through the native facility,
whose non-2xx statuses and thrown errors fail the call; in a web context
the request is attempted directly, retried exactly once through the CORS
proxy by prefixing the URL, and fails if both attempts fail. -/
theorem claim_C6_transport (env : FetchEnv) (url : String) :
    (env.isNative = true → env.hasCapacitorHttp = true →
      nativeFetch env url = (nativeStrategy env.nativeGet url, [HttpReq.nativeGet url])) ∧
    ((env.isNative && env.hasCapacitorHttp) = false →
      (nativeFetch env url).1 = webStrategy env.webGet url) ∧
    (∀ r, env.isNative = false → env.webGet url = Except.ok r → resOk r = true →
      nativeFetch env url = (Except.ok r.data, [HttpReq.webGet url])) ∧
    (∀ e, env.isNative = false → env.webGet url = Except.error e →
      nativeFetch env url =
        (webProxyAttempt env.webGet url,
         [HttpReq.webGet url, HttpReq.webGet (CORS_PROXY ++ url)])) ∧
    (∀ r, env.nativeGet url = Except.ok r → resOk r = false →
      nativeStrategy env.nativeGet url =
        Except.error ("Native HTTP Error: " ++ toString r.status)) ∧
    (∀ e, env.nativeGet url = Except.error e →
      nativeStrategy env.nativeGet url = Except.error e) ∧
    (∀ e, env.webGet (CORS_PROXY ++ url) = Except.error e →
      webProxyAttempt env.webGet url = Except.error "Web Fetch Failed") := by
  refine ⟨?_, ?_, ?_, ?_, ?_, ?_, ?_⟩
  · intro h1 h2
    simp [nativeFetch, h1, h2]
  · intro h
    rcases hw : env.webGet url with e | r
    · simp [nativeFetch, webStrategy, h, hw]
    · by_cases hr : resOk r <;> simp [nativeFetch, webStrategy, h, hw, hr]
  · intro r h1 h2 h3
    simp [nativeFetch, h1, h2, h3]
  · intro e h1 h2
    simp [nativeFetch, h1, h2]
  · intro r h1 h2
    simp [nativeStrategy, h1, h2]
  · intro e h1
    simp [nativeStrategy, h1]
  · intro e h1
    simp [webProxyAttempt, h1]

/-- Concrete run of the C6 theorem in a native context. -/
theorem claim_C6_transport_witness :
    nativeFetch envNat "https://example.org" =
      (nativeStrategy envNat.nativeGet "https://example.org",
       [HttpReq.nativeGet "https://example.org"]) :=
  (claim_C6_transport envNat "https://example.org").1 rfl rfl

/-- C8: getSuggestions never throws; the empty query returns an empty
sequence while issuing no request, and a failed rotated fetch yields an
empty sequence. -/
theorem claim_C8_suggestions (env : FetchEnv) (q : String) (idx : Nat) :
    (q = "" → streamService.getSuggestions env q idx = (([], idx), [])) ∧
    (∀ e, (fetchWithRotation env ("/suggestions?query=" ++ encodeURIComponent q) idx).1.1 =
        Except.error e →
      (streamService.getSuggestions env q idx).1.1 = []) := by
  constructor
  · intro h; subst h; rfl
  · intro e he
    by_cases hq : q = ""
    · subst hq; rfl
    · unfold streamService.getSuggestions
      rw [if_neg hq]
      rcases hr : fetchWithRotation env ("/suggestions?query=" ++ encodeURIComponent q) idx
        with ⟨⟨r, i⟩, t⟩
      rw [hr] at he
      have hre : r = Except.error e := he
      subst hre
      rfl

/-- Concrete run of the C8 theorem: empty query with no request issued,
and an offline web run returning an empty suggestion list. -/
theorem claim_C8_suggestions_witness :
    streamService.getSuggestions envDead "" 0 = (([], 0), []) ∧
    (streamService.getSuggestions envDead "a" 0).1.1 = [] :=
  ⟨(claim_C8_suggestions envDead "" 0).1 rfl,
   (claim_C8_suggestions envDead "a" 0).2 "All API instances failed." (by decide)⟩

/-- C9: for a provider token outside the recognized set, getTrending
returns the generic mock set unchanged and search returns the generic
mock set filtered by case-insensitive title substring match (no
short-query bypass, no unfiltered fallback), with no network request. -/
theorem claim_C9_unrecognized (env : FetchEnv) (mocks : MockSets)
    (platform country q : String) (idx : Nat)
    (h : platform ∉ (["YouTube", "All", "Dailymotion", "PeerTube",
                      "TikTok", "Rumble", "Bandcamp"] : List String)) :
    streamService.getTrending env mocks platform country idx = ((mocks.generic, idx), []) ∧
    streamService.search env mocks q platform idx =
      ((mocks.generic.filter (fun v => titleMatch q v), idx), []) := by
  simp only [List.mem_cons, List.not_mem_nil, or_false, not_or] at h
  obtain ⟨h1, h2, h3, h4, h5, h6, h7⟩ := h
  constructor
  · unfold streamService.getTrending streamService.getTrendingBody
    rw [if_neg (not_or.mpr ⟨h1, h2⟩), if_neg h3, if_neg h4, if_neg h5, if_neg h6, if_neg h7]
  · unfold streamService.search streamService.searchBody
    rw [if_neg (not_or.mpr ⟨h1, h2⟩), if_neg h3, if_neg h4, if_neg h5, if_neg h6]

/-- Concrete run of the C9 theorem at the token "Vimeo". -/
theorem claim_C9_unrecognized_witness :
    streamService.getTrending envDead mocksAB "Vimeo" "US" 0 = ((mocksAB.generic, 0), []) ∧
    streamService.search envDead mocksAB "be" "Vimeo" 0 =
      ((mocksAB.generic.filter (fun v => titleMatch "be" v), 0), []) :=
  claim_C9_unrecognized envDead mocksAB "Vimeo" "US" "be" 0 (by decide)

/-- C10: getStreamUrl returns null only for the YouTube branch; every
other platform token yields a non-null URL — the deterministic
Dailymotion embed URL, else the matching mock record's stream URL when it
is a non-empty string, else the fixed sample URL. -/
theorem claim_C10_streamUrl (env : FetchEnv) (mocks : MockSets)
    (id platform : String) (idx : Nat) (h : platform ≠ "YouTube") :
    ((streamService.getStreamUrl env mocks id platform idx).1.1 ≠ none) ∧
    (platform = "Dailymotion" →
      (streamService.getStreamUrl env mocks id platform idx).1.1 =
        some ("https://www.dailymotion.com/embed/video/" ++ id ++ "?autoplay=1")) ∧
    (platform ≠ "Dailymotion" →
      (streamService.getStreamUrl env mocks id platform idx).1.1 =
        match (mocks.tiktok ++ mocks.rumble ++ mocks.peertube ++ mocks.generic).find?
            (fun v => v.id == some id) with
        | some m => if jsTruthy m.streamUrl then m.streamUrl else some sampleUrl
        | none => some sampleUrl) := by
  unfold streamService.getStreamUrl
  rw [if_neg h]
  by_cases hd : platform = "Dailymotion"
  · rw [if_pos hd]
    exact ⟨by simp, fun _ => rfl, fun hc => absurd hd hc⟩
  · rw [if_neg hd]
    rcases hm : (mocks.tiktok ++ mocks.rumble ++ mocks.peertube ++ mocks.generic).find?
        (fun v => v.id == some id) with _ | m
    · refine ⟨?_, fun hc => absurd hc hd, fun _ => ?_⟩
      · simp only [hm]
        simp
      · simp only [hm]
    · by_cases ht : jsTruthy m.streamUrl
      · refine ⟨?_, fun hc => absurd hc hd, fun _ => ?_⟩
        · simp only [hm, ht, if_true]
          exact jsTruthy_ne_none ht
        · simp only [hm, ht, if_true]
      · refine ⟨?_, fun hc => absurd hc hd, fun _ => ?_⟩
        · simp only [hm, ht, if_false]
          simp
        · simp only [hm]
          rw [if_neg ht, if_neg ht]

/-- Concrete run of the C10 theorem at an unrecognized token. -/
theorem claim_C10_streamUrl_witness :
    (streamService.getStreamUrl envDead mocksAB "zz" "Whatever" 0).1.1 ≠ none :=
  (claim_C10_streamUrl envDead mocksAB "zz" "Whatever" 0 (by decide)).1

/-- C3 (amended): on the live path, TikTok and Rumble searches return the
mock set filtered by case-insensitive title substring match, with the
whole unfiltered set whenever the query is under 3 characters; a
matchless query of length at least 3 yields the empty sequence (the
unfiltered-set fallback exists only on the failure path), and no network
request is made. -/
theorem claim_C3_mockSearch (env : FetchEnv) (mocks : MockSets) (q : String) (idx : Nat) :
    streamService.search env mocks q "TikTok" idx =
      ((if q.length < 3 then mocks.tiktok
        else mocks.tiktok.filter (fun v => titleMatch q v), idx), []) ∧
    streamService.search env mocks q "Rumble" idx =
      ((if q.length < 3 then mocks.rumble
        else mocks.rumble.filter (fun v => titleMatch q v), idx), []) := by
  constructor
  · unfold streamService.search streamService.searchBody
    rw [if_neg (by decide), if_neg (by decide), if_neg (by decide), if_pos rfl]
    by_cases hq : q.length < 3
    · rw [if_pos hq]
      simp [decide_eq_true hq]
    · rw [if_neg hq]
      simp [decide_eq_false hq]
  · unfold streamService.search streamService.searchBody
    rw [if_neg (by decide), if_neg (by decide), if_neg (by decide), if_neg (by decide),
        if_pos rfl]
    by_cases hq : q.length < 3
    · rw [if_pos hq]
      simp [decide_eq_true hq]
    · rw [if_neg hq]
      simp [decide_eq_false hq]

/-- C3 as stated is false on the code: a matchless query of length at
least 3 against the TikTok mocks returns the empty sequence on the live
path, not the full mock set. -/
theorem claim_C3_counterexample :
    (streamService.search envDead mocksAB "xyz_no_match_query" "TikTok" 0).1.1 = [] ∧
    mocksAB.tiktok ≠ [] := ⟨by decide, by decide⟩

/-- C5: for the YouTube branch of getStreamUrl, a failed rotated fetch
yields null; on a stream payload the HLS URL is preferred when truthy,
else the first 1080p audio+video variant, else the first 720p audio+video
variant, else the first audio+video variant, and null when no audio+video
variant exists. -/
theorem claim_C5_ytStream (env : FetchEnv) (mocks : MockSets) (id : String) (idx : Nat) :
    (∀ e, (fetchWithRotation env ("/streams/" ++ id) idx).1.1 = Except.error e →
        (streamService.getStreamUrl env mocks id "YouTube" idx).1.1 = none) ∧
    (∀ d, (fetchWithRotation env ("/streams/" ++ id) idx).1.1 =
        Except.ok (Payload.streams d) →
      (jsTruthy d.hls = true →
        (streamService.getStreamUrl env mocks id "YouTube" idx).1.1 = d.hls) ∧
      (jsTruthy d.hls = false →
        (∀ s, (d.videoStreams.getD []).find? is1080pAV = some s →
            (streamService.getStreamUrl env mocks id "YouTube" idx).1.1 = s.url) ∧
        ((d.videoStreams.getD []).find? is1080pAV = none →
          ∀ s, (d.videoStreams.getD []).find? is720pAV = some s →
            (streamService.getStreamUrl env mocks id "YouTube" idx).1.1 = s.url) ∧
        ((d.videoStreams.getD []).find? is1080pAV = none →
          (d.videoStreams.getD []).find? is720pAV = none →
          ∀ s, (d.videoStreams.getD []).find? isAV = some s →
            (streamService.getStreamUrl env mocks id "YouTube" idx).1.1 = s.url) ∧
        ((d.videoStreams.getD []).find? isAV = none →
          (streamService.getStreamUrl env mocks id "YouTube" idx).1.1 = none))) := by
  rcases hr : fetchWithRotation env ("/streams/" ++ id) idx with ⟨⟨r, i⟩, t⟩
  constructor
  · intro e he
    have hre : r = Except.error e := he
    subst hre
    unfold streamService.getStreamUrl
    rw [if_pos rfl, hr]
  · intro d hd
    have hrd : r = Except.ok (Payload.streams d) := hd
    subst hrd
    have hG : streamService.getStreamUrl env mocks id "YouTube" idx =
        (if jsTruthy d.hls then ((d.hls, i), t)
         else
          (((match ((d.videoStreams.getD []).find? is1080pAV) <|>
                (((d.videoStreams.getD []).find? is720pAV) <|>
                  ((d.videoStreams.getD []).find? isAV)) with
             | some s => s.url
             | none => none), i), t)) := by
      unfold streamService.getStreamUrl
      rw [if_pos rfl, hr]
      rfl
    constructor
    · intro ht
      rw [hG, if_pos ht]
    · intro hf
      have hfn : ¬ (jsTruthy d.hls = true) := by simp [hf]
      refine ⟨?_, ?_, ?_, ?_⟩
      · intro s hs
        rw [hG, if_neg hfn, hs]
        rfl
      · intro h1 s hs
        rw [hG, if_neg hfn, h1, hs]
        rfl
      · intro h1 h2 s hs
        rw [hG, if_neg hfn, h1, h2, hs]
        rfl
      · intro hAV
        have h1 : (d.videoStreams.getD []).find? is1080pAV = none := by
          rw [List.find?_eq_none] at hAV ⊢
          intro x hx hpx
          apply hAV x hx
          simp only [is1080pAV, Bool.and_eq_true] at hpx
          simp only [isAV]
          exact hpx.2
        have h2 : (d.videoStreams.getD []).find? is720pAV = none := by
          rw [List.find?_eq_none] at hAV ⊢
          intro x hx hpx
          apply hAV x hx
          simp only [is720pAV, Bool.and_eq_true] at hpx
          simp only [isAV]
          exact hpx.2
        rw [hG, if_neg hfn, h1, h2, hAV]
        rfl

/-- Concrete run of the C5 theorem: a stream list holding a 720p and a
1080p audio+video variant and no HLS resolves to the 1080p URL. -/
theorem claim_C5_ytStream_witness :
    (streamService.getStreamUrl envStreams mocksAB "vid" "YouTube" 0).1.1 =
      some "https://u1080" := by
  have h := (claim_C5_ytStream envStreams mocksAB "vid" 0).2
    { hls := none, videoStreams := some [s720, s1080] } (by decide)
  exact (h.2 rfl).1 s1080 (by decide)

/-- C1 (amended): a failing dispatched call never surfaces as an error:
in a native context the operation returns the empty sequence; in a web
context getTrending returns the full mock set for the requested provider
while search returns that mock set filtered by the query, falling back to
the unfiltered set only when the filter matches nothing. -/
theorem claim_C1_fallback (env : FetchEnv) (mocks : MockSets)
    (platform country q : String) (idx : Nat) :
    (∀ e, (streamService.getTrendingBody env mocks platform country idx).1.1 =
        Except.error e →
      (streamService.getTrending env mocks platform country idx).1.1 =
        if env.isNative then [] else trendingMockFallback mocks platform) ∧
    (∀ e, (streamService.searchBody env mocks q platform idx).1.1 = Except.error e →
      (streamService.search env mocks q platform idx).1.1 =
        if env.isNative then []
        else
          if ((searchMockBase mocks platform).filter (fun v => titleMatch q v)).length > 0
          then (searchMockBase mocks platform).filter (fun v => titleMatch q v)
          else searchMockBase mocks platform) := by
  constructor
  · intro e he
    rcases hb : streamService.getTrendingBody env mocks platform country idx with ⟨⟨r, i⟩, t⟩
    rw [hb] at he
    have hre : r = Except.error e := he
    subst hre
    unfold streamService.getTrending
    rw [hb]
    cases hn : env.isNative <;> simp [hn]
  · intro e he
    rcases hb : streamService.searchBody env mocks q platform idx with ⟨⟨r, i⟩, t⟩
    rw [hb] at he
    have hre : r = Except.error e := he
    subst hre
    unfold streamService.search
    rw [hb]
    cases hn : env.isNative <;> simp [hn]

/-- C1 as stated is false on the code: in a failing web context, a
PeerTube search whose query matches one mock title returns the filtered
subset, which is neither the static mock set for the provider nor empty. -/
theorem claim_C1_counterexample :
    (streamService.searchBody envDead mocksAB "alpha" "PeerTube" 0).1.1 =
      Except.error "Web Fetch Failed" ∧
    envDead.isNative = false ∧
    (streamService.search envDead mocksAB "alpha" "PeerTube" 0).1.1 = [vAlpha] ∧
    [vAlpha] ≠ mocksAB.peertube ∧ ([vAlpha] : List VideoData) ≠ [] :=
  ⟨by decide, rfl, by decide, by decide, by decide⟩

/-- Concrete runs of the C1 theorem: a failing native YouTube trending
call returns the empty list, and a failing web PeerTube trending call
returns the PeerTube mock set. -/
theorem claim_C1_fallback_witness :
    (streamService.getTrending envDeadNative mocksAB "YouTube" "US" 0).1.1 = [] ∧
    (streamService.getTrending envDead mocksAB "PeerTube" "US" 0).1.1 =
      trendingMockFallback mocksAB "PeerTube" := by
  have h1 := (claim_C1_fallback envDeadNative mocksAB "YouTube" "US" "q" 0).1
    "All API instances failed." (by decide)
  have h2 := (claim_C1_fallback envDead mocksAB "PeerTube" "US" "q" 0).1
    "Web Fetch Failed" (by decide)
  exact ⟨h1.trans (by decide), h2.trans (by decide)⟩

/-- C4 (amended): the Dailymotion and PeerTube normalizers populate the
view count, duration, date, platform tag and — when the owner or account
object is absent — the uploader and avatar with the documented defaults;
the identifier, title and thumbnail of a Dailymotion item mirror the raw
fields (absent when absent), and the PeerTube mapper throws when both the
uuid and the numeric id are missing. -/
theorem claim_C4_normalizers (loc : String → String) (v : RawDmItem) (w : RawPtItem) :
    ((mapDmItem v).date = "Recently") ∧
    ((mapDmItem v).platform = "Dailymotion") ∧
    (v.viewsTotal = none → (mapDmItem v).views = "0") ∧
    (v.duration = none → (mapDmItem v).duration = "00:00") ∧
    (v.owner = none →
      (mapDmItem v).uploader = some "Unknown" ∧ (mapDmItem v).avatar = some "") ∧
    ((mapDmItem v).id = v.id ∧ (mapDmItem v).title = v.title ∧
      (mapDmItem v).thumbnail = v.thumbnail720url) ∧
    (∀ out, mapPtItem loc w = Except.ok out →
       out.platform = "PeerTube" ∧ out.avatar = some "" ∧
       (w.views = none → out.views = "0") ∧
       (w.duration = none → out.duration = "00:00") ∧
       (w.publishedAt = none → out.date = "Recently") ∧
       (w.account = none → out.uploader = some "PeerTube User")) ∧
    (jsTruthy w.uuid = false → w.id = none →
      ∃ e2, mapPtItem loc w = Except.error e2) := by
  refine ⟨rfl, rfl, ?_, ?_, ?_, ⟨rfl, rfl, rfl⟩, ?_, ?_⟩
  · intro h
    show formatViews (v.viewsTotal.getD 0) = "0"
    rw [h]
    rfl
  · intro h
    show formatDuration (v.duration.getD 0) = "00:00"
    rw [h]
    rfl
  · intro h
    constructor
    · show (match v.owner with
            | some o => o.username
            | none => some "Unknown") = some "Unknown"
      rw [h]
    · show (match v.owner with
            | some o => o.avatar80url
            | none => some "") = some ""
      rw [h]
  · intro out hout
    unfold mapPtItem at hout
    by_cases huu : jsTruthy w.uuid
    · rw [if_pos huu] at hout
      have hout2 := hout
      injection hout2 with hout3
      subst hout3
      refine ⟨rfl, rfl, ?_, ?_, ?_, ?_⟩
      · intro h
        show formatViews (w.views.getD 0) = "0"
        rw [h]
        rfl
      · intro h
        show formatDuration (w.duration.getD 0) = "00:00"
        rw [h]
        rfl
      · intro h
        show (if jsTruthy w.publishedAt then loc (w.publishedAt.getD "")
              else "Recently") = "Recently"
        rw [h]
        rfl
      · intro h
        show some (jsOrStr (w.account.bind RawPtAccount.name) "PeerTube User") =
          some "PeerTube User"
        rw [h]
        rfl
    · rw [if_neg huu] at hout
      rcases hw : w.id with _ | n
      · rw [hw] at hout
        exact Except.noConfusion hout
      · rw [hw] at hout
        have hout2 := hout
        injection hout2 with hout3
        subst hout3
        refine ⟨rfl, rfl, ?_, ?_, ?_, ?_⟩
        · intro h
          show formatViews (w.views.getD 0) = "0"
          rw [h]
          rfl
        · intro h
          show formatDuration (w.duration.getD 0) = "00:00"
          rw [h]
          rfl
        · intro h
          show (if jsTruthy w.publishedAt then loc (w.publishedAt.getD "")
                else "Recently") = "Recently"
          rw [h]
          rfl
        · intro h
          show some (jsOrStr (w.account.bind RawPtAccount.name) "PeerTube User") =
            some "PeerTube User"
          rw [h]
          rfl
  · intro h1 h2
    refine ⟨"TypeError: cannot read property of undefined", ?_⟩
    unfold mapPtItem
    rw [if_neg (by simp [h1]), h2]

/-- C4 as stated is false on the code: a Dailymotion raw item with no
title normalizes to a record whose title is absent, and a PeerTube raw
item lacking both uuid and id makes the PeerTube normalizer throw. -/
theorem claim_C4_counterexample :
    (∃ v ∈ mapDmData (Payload.dm { list := some [blankDm] }), v.title = none) ∧
    (∃ e2, mapPeerTubeData (fun s => s) (Payload.pt { data := some [blankPt] }) =
      Except.error e2) :=
  ⟨by decide, ⟨"TypeError: cannot read property of undefined", by decide⟩⟩

/-- Concrete run of the C4 theorem at the all-absent raw items. -/
theorem claim_C4_normalizers_witness :
    (mapDmItem blankDm).views = "0" ∧ (mapDmItem blankDm).duration = "00:00" ∧
    (mapDmItem blankDm).uploader = some "Unknown" ∧
    (∃ e2, mapPtItem (fun s => s) blankPt = Except.error e2) := by
  have h := claim_C4_normalizers (fun s => s) blankDm blankPt
  exact ⟨h.2.2.1 rfl, h.2.2.2.1 rfl, (h.2.2.2.2.1 rfl).1, h.2.2.2.2.2.2.2 rfl rfl⟩
